/-
Verification of the two adapter modules of this repository:
  homeassistant/components/light/tradfri.py          (Tradfri light/group platform)
  homeassistant/components/homekit/type_switches.py  (HomeKit switch bridge)

The embedding is shallow: each Python function that a claim mentions is
translated into an executable Lean definition over explicit state, and the
device/service commands it issues are collected into a list, in issue order.
Python floats are modelled as rationals; every claim settled here is
evaluated far from any binary-rounding boundary, so the rational and the
float semantics agree on the inputs used.
-/
import Mathlib

/-- Python `int(q)` on a rational: truncation toward zero
(`int(0.56) = 0`, `int(-0.5) = 0`). -/
def pyInt (q : ℚ) : ℤ := if q < 0 then ⌈q⌉ else ⌊q⌋

/-- Translation of `normalize_xy` (tradfri.py line 30): scales unit-interval
XY chromaticity to the device integer scale with the `+0.56` bias added
before truncation.  The Python function also takes an unused optional
`brightness` argument, dropped here. -/
def normalize_xy (argx argy : ℚ) : ℤ × ℤ :=
  (pyInt (argx * 65535 + 56/100), pyInt (argy * 65535 + 56/100))

/-- Translation of `denormalize_xy` (tradfri.py line 35): divides the device
integers by 65535 and subtracts the same `0.56` bias.  The unused optional
`brightness` argument is dropped here. -/
def denormalize_xy (argx argy : ℤ) : ℚ × ℚ :=
  ((argx : ℚ) / 65535 - 56/100, (argy : ℚ) / 65535 - 56/100)

/-- Command vocabulary of the light-control API that the body of
`TradfriLight.async_turn_on` / `async_turn_off` references.  The commands
the Python text would call with a `**params` keyword expansion carry the
optional `transition_time` entry of that dict as an `Option ℤ` field; the
others are written without it.  As shown below, the module as written can
only ever issue `set_rgb_color` from `async_turn_on` (every call aborts
before the remaining commands) and `set_state` from `async_turn_off`. -/
inductive Command where
  | set_rgb_color (r g b : ℕ)
  | set_kelvin_color (kelvin : ℚ)
  | set_xy_color (x y : ℤ) (transition_time : Option ℤ)
  | set_color_temp (temp : ℕ) (transition_time : Option ℤ)
  | set_dimmer (dimmer : ℕ) (transition_time : Option ℤ)
  | set_state (state : Bool)
  deriving DecidableEq, Repr

/-- Keyword arguments accepted by `TradfriLight.async_turn_on`.  Each field
models the presence of the corresponding attribute key in the Python
`kwargs` dict.  Note that while the dict may hold XY / RGB entries, the
module itself imports only `ATTR_BRIGHTNESS`, `ATTR_COLOR_TEMP`,
`ATTR_HS_COLOR` and `ATTR_TRANSITION`: the names `ATTR_XY_COLOR` and
`ATTR_RGB_COLOR` used at tradfri.py lines 261 and 267 are unbound in the
module, so evaluating line 261 raises `NameError` (see
`TradfriLight.async_turn_on` below). -/
structure LightKwargs where
  hs_color : Option (ℚ × ℚ)
  color_temp : Option ℕ
  xy_color : Option (ℚ × ℚ)
  rgb_color : Option (ℕ × ℕ × ℕ)
  brightness : Option ℕ
  transition : Option ℚ
  deriving DecidableEq, Repr

/-- Colour-conversion helpers of `homeassistant.util.color`, a module of
this repository that is outside the two files under study.  The adapter
only forwards their results into commands, so they are kept abstract as
parameters; every theorem below holds for all of them.  Only the HS → RGB
conversion is ever reached at run time: the call sites of the other two
(tradfri.py lines 250 and 270) lie on paths cut off by the errors described
at `TradfriLight.async_turn_on`. -/
structure ColorUtil where
  color_hs_to_RGB : ℚ → ℚ → ℕ × ℕ × ℕ
  color_temperature_mired_to_kelvin : ℕ → ℚ
  color_RGB_to_xy : ℕ → ℕ → ℕ → ℚ × ℚ

/-- Trivial instantiation of the abstract colour conversions, used to
evaluate the adapter at concrete inputs. -/
def cuZero : ColorUtil where
  color_hs_to_RGB := fun _ _ => (0, 0, 0)
  color_temperature_mired_to_kelvin := fun _ => 0
  color_RGB_to_xy := fun _ _ _ => (0, 0)

/-- Unhandled Python runtime errors that `TradfriLight.async_turn_on`
raises as written: `NameError` from the unbound `ATTR_XY_COLOR` at
tradfri.py line 261, and `AttributeError` from `self._temp_supported` at
line 249, an attribute that is never assigned anywhere in the class. -/
inductive PyError where
  | nameError
  | attributeError
  deriving DecidableEq, Repr

/-- Translation of `TradfriLight.async_turn_on` (tradfri.py lines 235-291)
as the source executes statement by statement.  The enclosing module is not
even importable under Python 3 — lines 244 and 252 use `yield from` inside
an `async def`, a `SyntaxError` — so this models the per-statement trace
with `yield from self._api(...)` read as the evidently intended command
dispatch; under that most generous reading every call still aborts before
the second branch chain.  Concretely: the first chain may issue the RGB
command (hs_color present and `self._light_data.hex_color` set, modelled by
`hex_color_set`), or raise `AttributeError` while evaluating the
never-assigned `self._temp_supported` in the elif condition at line 249
(reached when hs_color is absent or the hex colour unset, with color_temp
present and the hex colour set); every path that survives the first chain
then raises `NameError` at line 261, where the unbound name `ATTR_XY_COLOR`
is evaluated — unconditionally, before any `set_xy_color`,
`set_color_temp`, `set_dimmer` or `set_state(True)` can be issued.  Returns
the commands issued before the abort, with the error that ends the call. -/
def TradfriLight.async_turn_on (cu : ColorUtil) (hex_color_set : Bool)
    (kwargs : LightKwargs) : List Command × PyError :=
  match kwargs.hs_color, hex_color_set with
  | some hs, true =>
    let rgb := cu.color_hs_to_RGB hs.1 hs.2
    ([Command.set_rgb_color rgb.1 rgb.2.1 rgb.2.2], PyError.nameError)
  | _, _ =>
    match kwargs.color_temp, hex_color_set with
    | some _, true => ([], PyError.attributeError)
    | _, _ => ([], PyError.nameError)

/-- Translation of `TradfriLight.async_turn_off` (tradfri.py line 231). -/
def TradfriLight.async_turn_off : List Command := [Command.set_state false]

/-- Device commands a `TradfriGroup` can issue: `set_state` takes the
integer the source passes (`1` to turn on, `0` to turn off), `set_dimmer`
carries the optional `transition_time` entry of the `keys` dict. -/
inductive GroupCommand where
  | set_state (v : ℕ)
  | set_dimmer (dimmer : ℕ) (transition_time : Option ℤ)
  deriving DecidableEq, Repr

/-- Keyword arguments accepted by `TradfriGroup.async_turn_on`. -/
structure GroupKwargs where
  brightness : Option ℕ
  transition : Option ℚ
  deriving DecidableEq, Repr

/-- Translation of `TradfriGroup.async_turn_on` (tradfri.py lines 110-123):
builds the `keys` dict from the transition, rewrites `kwargs[ATTR_BRIGHTNESS]`
to 254 when it equals 255, then issues `set_dimmer(kwargs[ATTR_BRIGHTNESS],
**keys)` if a brightness is present and `set_state(1)` otherwise. -/
def TradfriGroup.async_turn_on (kwargs : GroupKwargs) : List GroupCommand :=
  let keys : Option ℤ := kwargs.transition.map (fun t => pyInt t * 10)
  match kwargs.brightness with
  | some b =>
    let kwargs := if b = 255 then { kwargs with brightness := some 254 } else kwargs
    [GroupCommand.set_dimmer (kwargs.brightness.getD 0) keys]
  | none => [GroupCommand.set_state 1]

/-- Translation of `TradfriGroup.async_turn_off` (tradfri.py line 106). -/
def TradfriGroup.async_turn_off : List GroupCommand := [GroupCommand.set_state 0]

/-- Exception kinds that can escape the `observe(...)` call inside
`_async_start_observe`: the gateway client's `PytradfriError`, or anything
else. -/
inductive PyExc where
  | pytradfriError
  | otherError
  deriving DecidableEq, Repr

/-- Translation of `TradfriLight._async_start_observe` (tradfri.py lines
293-309).  The input list supplies the outcome of each successive
`observe(...)` attempt (`Except.ok ()` when the command is built and the
job scheduled, `Except.error e` when the call raises `e`).  A
`PytradfriError` is caught, logged and retried by the recursive call on the
remaining outcomes; any other exception propagates; success on attempt `n`
yields `Except.ok n`.  `none` means the supplied outcomes were exhausted
while the code was still retrying. -/
def TradfriLight.asyncStartObserve : List (Except PyExc Unit) → Option (Except PyExc ℕ)
  | [] => none
  | Except.ok _ :: _ => some (Except.ok 1)
  | Except.error PyExc.pytradfriError :: rest =>
    match TradfriLight.asyncStartObserve rest with
    | some (Except.ok n) => some (Except.ok (n + 1))
    | other => other
  | Except.error PyExc.otherError :: _ => some (Except.error PyExc.otherError)

/-- Translation of `TradfriGroup._async_start_observe` (tradfri.py lines
125-141), whose body is identical to the light's: only `PytradfriError`
is caught and retried recursively, all else propagates. -/
def TradfriGroup.asyncStartObserve : List (Except PyExc Unit) → Option (Except PyExc ℕ)
  | [] => none
  | Except.ok _ :: _ => some (Except.ok 1)
  | Except.error PyExc.pytradfriError :: rest =>
    match TradfriGroup.asyncStartObserve rest with
    | some (Except.ok n) => some (Except.ok (n + 1))
    | other => other
  | Except.error PyExc.otherError :: _ => some (Except.error PyExc.otherError)

/-- Constant `STATE_ON` from `homeassistant.const` (outside the files under
study): the state string meaning an entity is on. -/
def STATE_ON : String := "on"

/-- Constant `SERVICE_TURN_ON` from `homeassistant.const`. -/
def SERVICE_TURN_ON : String := "turn_on"

/-- Constant `SERVICE_TURN_OFF` from `homeassistant.const`. -/
def SERVICE_TURN_OFF : String := "turn_off"

/-- Modelled from the spec: `split_entity_id` of the host core
(`homeassistant.core`, outside the files under study) splits an entity id
of the form `domain.object` at the dots; the switch bridge keeps only the
leading domain component. -/
def split_entity_id (entity_id : String) : List String := entity_id.splitOn "."

/-- Host state object handed to `update_state`; only its `state` string is
read by the switch bridge. -/
structure HAState where
  state : String
  deriving DecidableEq, Repr

/-- Mutable state of a HomeKit `Switch` accessory bridge
(type_switches.py): the echo-suppression flag plus the identifiers fixed at
construction. -/
structure SwitchBridge where
  flag_target_state : Bool
  domain : String
  entity_id : String
  deriving DecidableEq, Repr

/-- A call placed on the host's service registry:
`hass.services.call(domain, service, data)` with the entity id as data. -/
structure ServiceCall where
  domain : String
  service : String
  entity_id : String
  deriving DecidableEq, Repr

/-- Translation of `Switch.__init__` (type_switches.py lines 19-32): the
flag starts `False` and the domain is the first component of the entity
id. -/
def Switch.init (entity_id : String) : SwitchBridge :=
  { flag_target_state := false
    domain := (split_entity_id entity_id).headD ""
    entity_id := entity_id }

/-- Translation of `Switch.set_state` (type_switches.py lines 34-41): sets
the suppression flag, then issues one service call — turn-on when the value
is truthy, turn-off otherwise — for the entity's domain and id.  Returns
the new bridge state and the list of service calls issued. -/
def Switch.set_state (sw : SwitchBridge) (value : Bool) : SwitchBridge × List ServiceCall :=
  let sw := { sw with flag_target_state := true }
  let service := if value then SERVICE_TURN_ON else SERVICE_TURN_OFF
  (sw, [{ domain := sw.domain, service := service, entity_id := sw.entity_id }])

/-- Translation of `Switch.update_state` (type_switches.py lines 43-54):
returns early on a `None` state; otherwise pushes
`new_state.state == STATE_ON` to the characteristic (recorded with the
`should_callback` flag the source passes, which is `False`) unless the
suppression flag is set, and clears the flag.  The second component is the
pushed `(value, should_callback)` pair, if any. -/
def Switch.update_state (sw : SwitchBridge) (new_state : Option HAState) :
    SwitchBridge × Option (Bool × Bool) :=
  match new_state with
  | none => (sw, none)
  | some s =>
    let current_state := s.state == STATE_ON
    let pushed := if !sw.flag_target_state then some (current_state, false) else none
    ({ sw with flag_target_state := false }, pushed)

/-- One externally triggered operation on the switch bridge, used to state
that the suppression flag persists until the next `update_state`. -/
inductive SwitchOp where
  | setOp (value : Bool)
  | updateOp (new_state : Option HAState)
  deriving DecidableEq, Repr

/-- Runs a sequence of operations on the switch bridge, tracking only the
evolving bridge state. -/
def Switch.runOps (sw : SwitchBridge) : List SwitchOp → SwitchBridge
  | [] => sw
  | SwitchOp.setOp v :: rest => Switch.runOps (Switch.set_state sw v).1 rest
  | SwitchOp.updateOp s :: rest => Switch.runOps (Switch.update_state sw s).1 rest

/-- Dimmer values passed to `set_dimmer` commands, in issue order. -/
def dimmerValues (cmds : List Command) : List ℕ :=
  cmds.filterMap fun c =>
    match c with
    | Command.set_dimmer b _ => some b
    | _ => none

/-- Transition-time parameters carried by `set_dimmer` commands, in issue
order (`none` when the command was issued without one). -/
def dimmerTransitions (cmds : List Command) : List (Option ℤ) :=
  cmds.filterMap fun c =>
    match c with
    | Command.set_dimmer _ tt => some tt
    | _ => none

/-- Transition-time parameters carried by `set_xy_color` commands, in issue
order. -/
def xyTransitions (cmds : List Command) : List (Option ℤ) :=
  cmds.filterMap fun c =>
    match c with
    | Command.set_xy_color _ _ tt => some tt
    | _ => none

/-- Dimmer values passed to group `set_dimmer` commands, in issue order. -/
def groupDimmerValues (cmds : List GroupCommand) : List ℕ :=
  cmds.filterMap fun c =>
    match c with
    | GroupCommand.set_dimmer b _ => some b
    | _ => none

/-- A command that sets a colour (RGB, kelvin, XY or colour temperature),
as opposed to brightness or power. -/
def isColorCommand : Command → Bool
  | Command.set_rgb_color _ _ _ => true
  | Command.set_kelvin_color _ => true
  | Command.set_xy_color _ _ _ => true
  | Command.set_color_temp _ _ => true
  | Command.set_dimmer _ _ => false
  | Command.set_state _ => false

lemma runOps_flag_of_no_update (ops : List SwitchOp) (sw : SwitchBridge)
    (hops : ∀ op ∈ ops, ∀ s, op ≠ SwitchOp.updateOp s)
    (hflag : sw.flag_target_state = true) :
    (Switch.runOps sw ops).flag_target_state = true := by
  induction ops generalizing sw with
  | nil => simpa [Switch.runOps] using hflag
  | cons op rest ih =>
    cases op with
    | setOp v =>
      simp only [Switch.runOps]
      exact ih _ (fun o ho s => hops o (List.mem_cons_of_mem _ ho) s) (by
        simp [Switch.set_state])
    | updateOp s =>
      exact absurd rfl (hops _ (List.mem_cons_self _ _) s)

/-- C1 counterexample: with brightness 100, XY colour (0.1, 0.2) and
transition 5 requested together, the light adapter issues no command at
all: the call raises `NameError` at tradfri.py line 261 before the XY and
brightness logic, so in particular no `set_dimmer` command carrying
`int(transition) * 10 = 50` is ever issued. -/
theorem c1_counterexample :
    TradfriLight.async_turn_on cuZero true
        ⟨none, none, some (1/10, 1/5), none, some 100, some 5⟩ =
      ([], PyError.nameError) ∧
    dimmerTransitions (TradfriLight.async_turn_on cuZero true
        ⟨none, none, some (1/10, 1/5), none, some 100, some 5⟩).1 ≠
      [some (pyInt 5 * 10)] := by
  refine ⟨rfl, ?_⟩
  simp [TradfriLight.async_turn_on, dimmerTransitions]

/-- C1 (amended): when brightness, XY colour and a transition are all
supplied to the light adapter's turn_on, no `set_xy_color` and no
`set_dimmer` command is issued at all — so neither carries any
transition-time parameter — because the call aborts with an unhandled
`NameError` (unbound `ATTR_XY_COLOR`, line 261) or `AttributeError`
(`self._temp_supported`, line 249) before reaching either command. -/
theorem c1_amended (cu : ColorUtil) (hex : Bool) (kw : LightKwargs)
    (xy : ℚ × ℚ) (b : ℕ) (t : ℚ)
    (_hxy : kw.xy_color = some xy) (_hb : kw.brightness = some b)
    (_ht : kw.transition = some t) :
    xyTransitions (TradfriLight.async_turn_on cu hex kw).1 = [] ∧
    dimmerTransitions (TradfriLight.async_turn_on cu hex kw).1 = [] ∧
    ((TradfriLight.async_turn_on cu hex kw).2 = PyError.nameError ∨
      (TradfriLight.async_turn_on cu hex kw).2 = PyError.attributeError) := by
  obtain ⟨khs, kct, kxy, krgb, kb, kt⟩ := kw
  refine ⟨?_, ?_, ?_⟩ <;>
    cases khs <;> cases hex <;> cases kct <;>
      simp [TradfriLight.async_turn_on, xyTransitions, dimmerTransitions]

/-- C1 witness: the amended statement evaluated at brightness 100, XY
colour (0.1, 0.2) and transition 5. -/
theorem c1_witness :
    xyTransitions (TradfriLight.async_turn_on cuZero true
      ⟨none, none, some (1/10, 1/5), none, some 100, some 5⟩).1 = [] ∧
    dimmerTransitions (TradfriLight.async_turn_on cuZero true
      ⟨none, none, some (1/10, 1/5), none, some 100, some 5⟩).1 = [] ∧
    ((TradfriLight.async_turn_on cuZero true
        ⟨none, none, some (1/10, 1/5), none, some 100, some 5⟩).2 =
        PyError.nameError ∨
      (TradfriLight.async_turn_on cuZero true
        ⟨none, none, some (1/10, 1/5), none, some 100, some 5⟩).2 =
        PyError.attributeError) :=
  c1_amended cuZero true ⟨none, none, some (1/10, 1/5), none, some 100, some 5⟩
    (1/10, 1/5) 100 5 rfl rfl rfl

/-- C2 counterexample: turn_on with both the XY and the RGB colour
attributes present — multiple colour attributes, on a device whose hex
colour is set — executes no colour path at all: zero colour commands are
issued, not exactly one, because the call raises `NameError` at tradfri.py
line 261 before the XY / RGB / temperature branches can run. -/
theorem c2_counterexample :
    TradfriLight.async_turn_on cuZero true
        ⟨none, none, some (1/10, 1/5), some (255, 0, 0), none, none⟩ =
      ([], PyError.nameError) ∧
    (TradfriLight.async_turn_on cuZero true
        ⟨none, none, some (1/10, 1/5), some (255, 0, 0), none,
          none⟩).1.countP isColorCommand ≠ 1 := by
  refine ⟨rfl, ?_⟩
  simp [TradfriLight.async_turn_on]

/-- C2 (amended): only the first branch chain of the colour handling can
ever run.  With hs_color present and the device's hex colour set, exactly
one colour command — the RGB command — is issued and no temperature
command at all (in particular with both hs_color and color_temp supplied),
after which the call aborts with `NameError` at line 261; a call whose
colour handling would fall through to the XY / RGB / plain-temperature
branches issues no colour command whatsoever, aborting with `NameError`
there (or `AttributeError` at the `self._temp_supported` check at line 249)
first. -/
theorem c2_amended (cu : ColorUtil) (kw : LightKwargs)
    (hs : ℚ × ℚ) (ct : ℕ)
    (h1 : kw.hs_color = some hs) (h2 : kw.color_temp = some ct) :
    ∃ r g b,
      TradfriLight.async_turn_on cu true kw =
        ([Command.set_rgb_color r g b], PyError.nameError) ∧
      (TradfriLight.async_turn_on cu true kw).1.countP isColorCommand = 1 ∧
      (∀ temp tt, Command.set_color_temp temp tt ∉
        (TradfriLight.async_turn_on cu true kw).1) ∧
      (∀ kelvin, Command.set_kelvin_color kelvin ∉
        (TradfriLight.async_turn_on cu true kw).1) := by
  obtain ⟨khs, kct, kxy, krgb, kb, kt⟩ := kw
  simp only at h1 h2
  subst h1 h2
  refine ⟨(cu.color_hs_to_RGB hs.1 hs.2).1, (cu.color_hs_to_RGB hs.1 hs.2).2.1,
    (cu.color_hs_to_RGB hs.1 hs.2).2.2, rfl, ?_, ?_, ?_⟩
  · simp [TradfriLight.async_turn_on, List.countP_cons, isColorCommand]
  · intro temp tt
    simp [TradfriLight.async_turn_on]
  · intro kelvin
    simp [TradfriLight.async_turn_on]

/-- C2 witness: the amended statement evaluated at hs_color (10, 50) and
color_temp 300. -/
theorem c2_witness :
    ∃ r g b,
      TradfriLight.async_turn_on cuZero true
          ⟨some (10, 50), some 300, none, none, none, none⟩ =
        ([Command.set_rgb_color r g b], PyError.nameError) ∧
      (TradfriLight.async_turn_on cuZero true
          ⟨some (10, 50), some 300, none, none, none, none⟩).1.countP
          isColorCommand = 1 ∧
      (∀ temp tt, Command.set_color_temp temp tt ∉
        (TradfriLight.async_turn_on cuZero true
          ⟨some (10, 50), some 300, none, none, none, none⟩).1) ∧
      (∀ kelvin, Command.set_kelvin_color kelvin ∉
        (TradfriLight.async_turn_on cuZero true
          ⟨some (10, 50), some 300, none, none, none, none⟩).1) :=
  c2_amended cuZero ⟨some (10, 50), some 300, none, none, none, none⟩
    (10, 50) 300 rfl rfl

/-- C3 counterexample: `update_state` called with no new state returns
early, so a previously set suppression flag is still set afterward. -/
theorem c3_counterexample :
    (Switch.update_state ⟨true, "switch", "switch.a"⟩ none).1.flag_target_state ≠
      false := by decide

/-- C3 (amended): after any `update_state` call whose new_state is present,
the suppression flag is `False`, whatever its prior value; a call with no
new state returns early and leaves the bridge (and the flag) unchanged. -/
theorem c3_amended (sw : SwitchBridge) :
    (∀ s, (Switch.update_state sw (some s)).1.flag_target_state = false) ∧
    Switch.update_state sw none = (sw, none) := by
  constructor
  · intro s
    simp [Switch.update_state]
  · rfl

/-- C5: on a non-`None` state, `update_state` pushes nothing when the
suppression flag is set, and pushes exactly `new_state.state == STATE_ON`
with the callback disabled when it is unset; the flag is cleared in both
cases. -/
theorem c5_update_state_contract (flag : Bool) (d e : String) (s : HAState) :
    (Switch.update_state ⟨flag, d, e⟩ (some s)).1.flag_target_state = false ∧
    (Switch.update_state ⟨flag, d, e⟩ (some s)).2 =
      (if flag then none else some (s.state == STATE_ON, false)) := by
  cases flag <;> simp [Switch.update_state]

/-- C6: `set_state true` issues exactly one service call — the turn-on
service of the entity's domain, targeted at the entity id — and sets the
suppression flag, which then stays set across any further operations that
are not `update_state` calls. -/
theorem c6_set_state_true (entity_id : String) (ops : List SwitchOp)
    (hops : ∀ op ∈ ops, ∀ s, op ≠ SwitchOp.updateOp s) :
    (Switch.set_state (Switch.init entity_id) true).2 =
      [{ domain := (split_entity_id entity_id).headD ""
         service := SERVICE_TURN_ON
         entity_id := entity_id }] ∧
    (Switch.set_state (Switch.init entity_id) true).1.flag_target_state = true ∧
    (Switch.runOps (Switch.set_state (Switch.init entity_id) true).1
      ops).flag_target_state = true := by
  refine ⟨rfl, rfl, ?_⟩
  exact runOps_flag_of_no_update ops _ hops rfl

/-- C6 witness: the statement evaluated for entity id "switch.a" with one
further `set_state` call before any `update_state`. -/
theorem c6_witness :
    (Switch.set_state (Switch.init "switch.a") true).2 =
      [{ domain := (split_entity_id "switch.a").headD ""
         service := SERVICE_TURN_ON
         entity_id := "switch.a" }] ∧
    (Switch.set_state (Switch.init "switch.a") true).1.flag_target_state = true ∧
    (Switch.runOps (Switch.set_state (Switch.init "switch.a") true).1
      [SwitchOp.setOp false]).flag_target_state = true :=
  c6_set_state_true "switch.a" [SwitchOp.setOp false]
    (by intro op hop s; simp only [List.mem_singleton] at hop; subst hop; simp)

/-- C7 counterexample: a light-adapter turn_on requesting only brightness
255 issues no `set_dimmer` command at all — the call raises `NameError` at
tradfri.py line 261 before the brightness logic — so brightness 255 is not
passed to `set_dimmer` as 254 on the light adapter. -/
theorem c7_counterexample :
    TradfriLight.async_turn_on cuZero true
        ⟨none, none, none, none, some 255, none⟩ =
      ([], PyError.nameError) ∧
    dimmerValues (TradfriLight.async_turn_on cuZero true
        ⟨none, none, none, none, some 255, none⟩).1 ≠ [254] := by
  refine ⟨rfl, ?_⟩
  simp [TradfriLight.async_turn_on, dimmerValues]

/-- C7 (amended): on the group adapter a requested brightness of 255
reaches `set_dimmer` as 254 and any other requested brightness reaches it
unchanged, issued exactly once; the light adapter never issues a
`set_dimmer` command from any turn_on call — every call aborts with an
unhandled error before the brightness logic — so no brightness value is
ever passed there. -/
theorem c7_amended :
    (∀ (cu : ColorUtil) (hex : Bool) (kw : LightKwargs),
      dimmerValues (TradfriLight.async_turn_on cu hex kw).1 = []) ∧
    (∀ (kw : GroupKwargs) (b : ℕ),
      kw.brightness = some b →
        groupDimmerValues (TradfriGroup.async_turn_on kw) =
          [if b = 255 then 254 else b]) := by
  constructor
  · intro cu hex kw
    obtain ⟨khs, kct, kxy, krgb, kb, kt⟩ := kw
    cases khs <;> cases hex <;> cases kct <;>
      simp [TradfriLight.async_turn_on, dimmerValues]
  · intro kw b hb
    unfold TradfriGroup.async_turn_on groupDimmerValues
    rw [hb]
    by_cases h255 : b = 255 <;> simp [h255, hb]

/-- C7 witness: on a brightness-255 call the light adapter issues no
dimmer command while the group adapter issues dimmer 254. -/
theorem c7_witness :
    dimmerValues (TradfriLight.async_turn_on cuZero true
      ⟨none, none, none, none, some 255, none⟩).1 = [] ∧
    groupDimmerValues (TradfriGroup.async_turn_on ⟨some 255, none⟩) = [254] := by
  constructor
  · exact c7_amended.1 cuZero true ⟨none, none, none, none, some 255, none⟩
  · have h := c7_amended.2 ⟨some 255, none⟩ 255 rfl
    simpa using h

/-- C8: the XY round-trip is not the identity — at (0, 0), inside the unit
interval, `normalize_xy` gives (0, 0) and `denormalize_xy` then gives
(-0.56, -0.56): the forward transform adds the 0.56 bias before scaling
while the backward one subtracts it after scaling. -/
theorem c8_roundtrip_not_inverse :
    ∃ x y : ℚ, 0 ≤ x ∧ x ≤ 1 ∧ 0 ≤ y ∧ y ≤ 1 ∧
      denormalize_xy (normalize_xy x y).1 (normalize_xy x y).2 ≠ (x, y) := by
  refine ⟨0, 0, le_refl 0, by norm_num, le_refl 0, by norm_num, ?_⟩
  norm_num [normalize_xy, denormalize_xy, pyInt]

/-- C9: in both adapters' observe loop, a `PytradfriError` from the observe
call is caught and retried by an immediate recursive call with no retry
limit (any number n of consecutive failures is survived, subscription
succeeding on attempt n + 1), while any other exception propagates to the
caller at once. -/
theorem c9_observe_retry :
    (∀ n : ℕ,
      TradfriLight.asyncStartObserve
          (List.replicate n (Except.error PyExc.pytradfriError) ++ [Except.ok ()]) =
        some (Except.ok (n + 1)) ∧
      TradfriGroup.asyncStartObserve
          (List.replicate n (Except.error PyExc.pytradfriError) ++ [Except.ok ()]) =
        some (Except.ok (n + 1))) ∧
    (∀ rest,
      TradfriLight.asyncStartObserve (Except.error PyExc.otherError :: rest) =
        some (Except.error PyExc.otherError) ∧
      TradfriGroup.asyncStartObserve (Except.error PyExc.otherError :: rest) =
        some (Except.error PyExc.otherError)) := by
  constructor
  · intro n
    induction n with
    | zero => exact ⟨rfl, rfl⟩
    | succ m ih =>
      refine ⟨?_, ?_⟩
      · simp only [List.replicate_succ, List.cons_append,
          TradfriLight.asyncStartObserve, List.append_eq, ih.1]
      · simp only [List.replicate_succ, List.cons_append,
          TradfriGroup.asyncStartObserve, List.append_eq, ih.2]
  · intro rest
    exact ⟨rfl, rfl⟩

/-- C10: the group adapter's turn_on issues exactly one command — a
`set_dimmer` with the 255-adjusted brightness (and no `set_state`) when a
brightness is present, `set_state 1` otherwise — and turn_off issues
exactly `set_state 0`. -/
theorem c10_group_commands (kw : GroupKwargs) :
    (TradfriGroup.async_turn_on kw).length = 1 ∧
    (kw.brightness = none → TradfriGroup.async_turn_on kw = [GroupCommand.set_state 1]) ∧
    (∀ b, kw.brightness = some b →
      TradfriGroup.async_turn_on kw =
        [GroupCommand.set_dimmer (if b = 255 then 254 else b)
          (kw.transition.map (fun t => pyInt t * 10))]) ∧
    TradfriGroup.async_turn_off = [GroupCommand.set_state 0] := by
  refine ⟨?_, ?_, ?_, rfl⟩
  · unfold TradfriGroup.async_turn_on
    cases h : kw.brightness with
    | none => rfl
    | some b => by_cases h255 : b = 255 <;> simp [h255]
  · intro h
    unfold TradfriGroup.async_turn_on
    rw [h]
  · intro b hb
    unfold TradfriGroup.async_turn_on
    rw [hb]
    by_cases h255 : b = 255 <;> simp [h255, hb]

/-- C10 witness: the statement evaluated at brightness 255 with no
transition. -/
theorem c10_witness :
    TradfriGroup.async_turn_on ⟨some 255, none⟩ =
      [GroupCommand.set_dimmer (if 255 = 255 then 254 else 255)
        ((none : Option ℚ).map (fun t => pyInt t * 10))] :=
  (c10_group_commands ⟨some 255, none⟩).2.2.1 255 rfl

/-- C4 counterexample: `normalize_xy 0 0` is not (36, 36) — the bias 0.56
is added after the scaling by 65535, so `int(0.0 * 65535 + 0.56) = 0`. -/
theorem c4_counterexample : normalize_xy 0 0 ≠ (36, 36) := by
  have h : normalize_xy 0 0 = (0, 0) := by norm_num [normalize_xy, pyInt]
  rw [h]
  decide

/-- C4 (amended): `normalize_xy` applied to the chromaticity pair
(0.0, 0.0) returns the device-scale pair (0, 0): the +0.56 bias is below 1
and is truncated away. -/
theorem c4_amended : normalize_xy 0 0 = (0, 0) := by
  norm_num [normalize_xy, pyInt]
